import Mathlib

/-!
Verification development for the seocheck audit engine.

The definitions below are a shallow embedding of the JavaScript sources:

* the scorer in `src/app/api/send-pdf/route.js` (category weights, weighted
  per-category scores, harmonic-mean aggregation, hard gates);
* the audit orchestrator in `src/unnamed/part_002` (the `app/api/check/route.js`
  variant with the blob snapshot store): budget and quota controller, the
  normal / BLOCKED / TIMEOUT report builders, the in-process cache and the
  GET/POST cache policy, and the canonical-tag comparison.

Machine numbers are modelled with `ℚ` and `ℤ` (JavaScript numbers are doubles,
but every computation the claims touch is exact on small rationals).
Remote behaviour (fetch outcomes, wall-clock readings, regex extraction
results from the fetched HTML) is supplied through explicit environment
records; each field is documented with the source expression it stands for.
-/

namespace SeoCheck

/-- One classified finding, `{id, status}`.  The JavaScript objects also carry
`label`, `details` and sometimes `value`; those fields are never read by the
scorer, the gates, the cache policy or any property verified here, so the
embedding keeps only `id` and `status` (statuses are the literal strings
`"pass" | "warn" | "fail" | "locked"`, lower-cased where the source lower-cases). -/
structure Check where
  id : String
  status : String
deriving DecidableEq, Repr

/-- JavaScript `String.prototype.toLowerCase()` as used on status strings.
(Implemented over the character list so that it evaluates in the kernel;
all statuses the program compares are plain ASCII.) -/
def jsToLower (s : String) : String := String.mk (s.data.map Char.toLower)

/-! ## Scorer (`src/app/api/send-pdf/route.js`) -/

/-- `CATS.SEO` (route.js lines 67-83). -/
def CATS_SEO : List String :=
  ["sitemap", "robots", "favicon", "opengraph", "canonical", "noindex",
   "meta-robots", "meta-description", "title-length", "viewport",
   "www-canonical", "img-alt", "structured-data", "h1-structure", "llms"]

/-- `CATS.PERFORMANCE` (route.js line 84). -/
def CATS_PERFORMANCE : List String :=
  ["timeout", "psi", "ttfb", "img-modern", "img-size", "img-lazy", "compression"]

/-- `CATS.SECURITY` (route.js line 85). -/
def CATS_SECURITY : List String :=
  ["blocked", "http", "https-redirect", "mixed-content", "security-headers"]

/-- `LOCKED_IDS` (route.js lines 88-97). -/
def LOCKED_IDS : List String :=
  ["h1-structure", "llms", "mixed-content", "security-headers",
   "compression", "structured-data", "https-redirect"]

/-- `EXCLUDE_FROM_SCORE` (route.js line 98). -/
def EXCLUDE_FROM_SCORE : List String := ["blocked", "timeout"]

/-- `WEIGHTS` lookup with the JavaScript default
`Number.isFinite(WEIGHTS[c.id]) ? WEIGHTS[c.id] : 1` (route.js lines 100-128, 171). -/
def weightOf (id : String) : ℚ :=
  if id = "sitemap" then 2.2
  else if id = "canonical" then 2.0
  else if id = "meta-robots" then 1.0
  else if id = "robots" then 1.6
  else if id = "www-canonical" then 1.2
  else if id = "noindex" then 5
  else if id = "img-alt" then 1.2
  else if id = "viewport" then 1.1
  else if id = "meta-description" then 0.8
  else if id = "title-length" then 0.8
  else if id = "opengraph" then 0.5
  else if id = "favicon" then 0.3
  else if id = "psi" then 2.4
  else if id = "ttfb" then 1.4
  else if id = "img-size" then 1.2
  else if id = "img-modern" then 0.8
  else if id = "img-lazy" then 0.6
  else if id = "http" then 2.0
  else if id = "https-redirect" then 1.8
  else if id = "mixed-content" then 1.8
  else if id = "security-headers" then 1.0
  else if id = "compression" then 1.2
  else if id = "structured-data" then 1.4
  else 1

/-- `CATEGORY_WEIGHTS` with the `Number(catWeights?.[cat] ?? 1)` default
(route.js lines 160 and 183). -/
def categoryWeight (cat : String) : ℚ :=
  if cat = "SEO" then 0.55
  else if cat = "PERFORMANCE" then 0.35
  else if cat = "SECURITY" then 0.1
  else 1

/-- `usable` (route.js line 163): a check participates in scoring when its id is
neither a locked id nor in `EXCLUDE_FROM_SCORE`. -/
def usable (c : Check) : Bool :=
  !(LOCKED_IDS.contains c.id) && !(EXCLUDE_FROM_SCORE.contains c.id)

/-- `vFor` (route.js line 164): pass ↦ 1, warn ↦ 0.5, anything else ↦ 0. -/
def vFor (st : String) : ℚ :=
  if st = "pass" then 1 else if st = "warn" then 0.5 else 0

/-- `catWeightedScore` (route.js lines 166-176).  The JavaScript loop accumulates
`sum += w·v` and `wsum += w`; the embedding takes the same two sums over the
filtered items.  Returns `none` for JavaScript `null` (no usable item). -/
def catWeightedScore (checks : List Check) (ids : List String) : Option ℚ :=
  let items := checks.filter fun c => usable c && ids.contains c.id
  if items.isEmpty then none
  else
    let sum := (items.map fun c => weightOf c.id * vFor (jsToLower c.status)).sum
    let wsum := (items.map fun c => weightOf c.id).sum
    some (if wsum = 0 then 1 else sum / wsum)

/-- The clamp `Math.max(0.05, Math.min(1, s))` applied inside `harmonicMean`
(route.js line 184). -/
def clampScore (s : ℚ) : ℚ := max 0.05 (min 1 s)

/-- The entry filter of `harmonicMean` (route.js line 179):
`([, v]) => typeof v === "number" && v > 0` — a category participates only
when its score is non-null AND strictly positive. -/
def hmKeep (p : String × Option ℚ) : Option (String × ℚ) :=
  match p.2 with
  | some v => if 0 < v then some (p.1, v) else none
  | none => none

/-- `Object.entries(catScores).filter(...)` (route.js line 179). -/
def hmEntries (catScores : List (String × Option ℚ)) : List (String × ℚ) :=
  catScores.filterMap hmKeep

/-- `harmonicMean` (route.js lines 178-189).  The loop accumulates `num += w`
and `denom += w / sClamped`; with no entries it returns 1. -/
def harmonicMean (catScores : List (String × Option ℚ)) (w : String → ℚ) : ℚ :=
  let entries := hmEntries catScores
  if entries.isEmpty then 1
  else
    ((entries.map fun e => w e.1).sum) /
      ((entries.map fun e => w e.1 / clampScore e.2).sum)

/-- `Object.fromEntries(checks.map(c => [c.id, c]))` (route.js line 192):
for a duplicated id the later entry wins, which is exactly a left fold. -/
def byId (checks : List Check) (id : String) : Option Check :=
  checks.foldl (fun acc c => if c.id = id then some c else acc) none

/-- `isFail` (route.js line 193):
`String(byId[id]?.status || "").toLowerCase() === "fail"`. -/
def isFail (checks : List Check) (id : String) : Bool :=
  match byId checks id with
  | some c => jsToLower c.status == "fail"
  | none => false

/-- `applyGates` (route.js lines 191-200): noindex-fail returns 0 immediately,
then the caps 40 / 65 / 80 are applied in order by `Math.min`. -/
def applyGates (overall : ℤ) (checks : List Check) : ℤ :=
  if isFail checks "noindex" then 0
  else
    let out1 := if isFail checks "http" then min overall 40 else overall
    let out2 := if isFail checks "canonical" then min out1 65 else out1
    if isFail checks "sitemap" || isFail checks "robots" then min out2 80 else out2

/-- `Math.round` on the non-negative rationals produced here:
round-half-up, i.e. `⌊q + 1/2⌋`. -/
def jsRound (q : ℚ) : ℤ := Int.floor (q + 1/2)

/-- The `catScores` object built by `computeOverall` (route.js lines 203-207). -/
def catScoresOf (checks : List Check) : List (String × Option ℚ) :=
  [("SEO", catWeightedScore checks CATS_SEO),
   ("PERFORMANCE", catWeightedScore checks CATS_PERFORMANCE),
   ("SECURITY", catWeightedScore checks CATS_SECURITY)]

/-- `Math.round(harmonicMean(catScores, CATEGORY_WEIGHTS) * 100)`
(route.js line 208), before the gates. -/
def overallPreGates (checks : List Check) : ℤ :=
  jsRound (harmonicMean (catScoresOf checks) categoryWeight * 100)

/-- `computeOverall(...).overall` (route.js lines 202-211). -/
def computeOverall (checks : List Check) : ℤ :=
  applyGates (overallPreGates checks) checks

/-- Modelled from the spec (§4.7): "Aggregation uses a weighted harmonic mean
over non-null category scores (per-category score clamped to [0.05, 1])" —
under this reading every non-null score participates, including an exact 0.
Used only to compare the spec sentence against `hmKeep`, which additionally
requires `v > 0`. -/
def specHmKeep (p : String × Option ℚ) : Option (String × ℚ) :=
  match p.2 with
  | some v => some (p.1, v)
  | none => none

/-- Modelled from the spec (§4.7): entries of the spec-side harmonic mean. -/
def specHmEntries (catScores : List (String × Option ℚ)) : List (String × ℚ) :=
  catScores.filterMap specHmKeep

/-- Modelled from the spec (§4.7): the weighted harmonic mean over all
non-null category scores, each clamped to [0.05, 1]. -/
def specHarmonicMean (catScores : List (String × Option ℚ)) (w : String → ℚ) : ℚ :=
  let entries := specHmEntries catScores
  if entries.isEmpty then 1
  else
    ((entries.map fun e => w e.1).sum) /
      ((entries.map fun e => w e.1 / clampScore e.2).sum)

/-- Modelled from the spec: the pre-gate overall under the spec reading of
the aggregation. -/
def specOverallPreGates (checks : List Check) : ℤ :=
  jsRound (specHarmonicMean (catScoresOf checks) categoryWeight * 100)

/-! ## Budget and quota controller (`src/unnamed/part_002`) -/

/-- `OVERALL_BUDGET_MS` (part_002 line 111), with the documented default of
`AUDIT_BUDGET_MS`, 8500 ms. -/
def OVERALL_BUDGET_MS : ℤ := 8500

/-- `LIMITS.MAX_SUBREQUESTS` (part_002 line 120). -/
def MAX_SUBREQUESTS : ℤ := 8

/-- `timeLeft()` (part_002 line 530):
`Math.max(0, OVERALL_BUDGET_MS - (Date.now() - startedAt))`, as a function of
the elapsed wall-clock milliseconds. -/
def timeLeft (budgetMs elapsed : ℤ) : ℤ := max 0 (budgetMs - elapsed)

/-- `within(ms)` (part_002 line 531):
`Math.max(150, Math.min(ms, timeLeft()))`. -/
def within (budgetMs elapsed ms : ℤ) : ℤ :=
  max 150 (min ms (timeLeft budgetMs elapsed))

/-- The generic clamp `clamp(x, lo, hi) = max(lo, min(x, hi))` the spec uses to
describe `within`. -/
def clampInt (x lo hi : ℤ) : ℤ := max lo (min x hi)

/-- `spend(n)` (part_002 lines 534-535): returns whether the spend succeeded
together with the new quota counter; a failed spend leaves the counter
unchanged. -/
def spend (budget n : ℤ) : Bool × ℤ :=
  if budget - n < 0 then (false, budget) else (true, budget - n)

/-! ## Canonical-tag comparison (part_002 lines 1173-1198) -/

/-- A parsed WHATWG URL as the orchestrator sees it: the components read and
written by the canonical-tag comparison.  `protocol` carries the trailing
colon (`"https:"`), `port` is `""` when absent. -/
structure JsUrl where
  protocol : String
  hostname : String
  port : String
  pathname : String
  search : String
  hash : String
deriving DecidableEq, Repr

/-- URL serialization (`a.toString()`) restricted to the components above. -/
def JsUrl.href (u : JsUrl) : String :=
  u.protocol ++ "//" ++ u.hostname ++ (if u.port = "" then "" else ":" ++ u.port) ++
    u.pathname ++ u.search ++ u.hash

/-- `p.replace(/\/+$/, "")`: drop the maximal trailing run of `/`. -/
def stripTrailingSlashes (s : String) : String :=
  String.mk ((s.data.reverse.dropWhile fun c => c = '/').reverse)

/-- The normalization applied to both URLs before comparison (part_002 lines
1184-1187): clear hash and search, lower-case the hostname, and strip trailing
slashes from a non-root pathname. -/
def canonNormalize (u : JsUrl) : JsUrl :=
  { u with
    hash := ""
    search := ""
    hostname := jsToLower u.hostname
    pathname := if u.pathname ≠ "/" then stripTrailingSlashes u.pathname else u.pathname }

/-- The status of the `canonical` check (part_002 lines 1173-1198) as a
function of the parsed inputs: `canonHrefs` holds, per `<link rel=canonical>`
tag in document order, the tag's href resolved against `finalUrl` via
`absUrl` (`none` when the `href` attribute is missing or unresolvable, in
which case `canonicalHref` stays `undefined`); `finalUrl` is `pageRes.url`
parsed.  The code compares the serialized normalized URLs and emits
`canonicalHref ? (canonicalOk && !multipleCanon ? "pass" : "warn") : "fail"`. -/
def canonicalStatus (canonHrefs : List (Option JsUrl)) (finalUrl : JsUrl) : String :=
  match canonHrefs with
  | [] => "fail"
  | first :: rest =>
    match first with
    | none => "fail"
    | some a =>
      let multipleCanon := !rest.isEmpty
      let canonicalOk := (canonNormalize a).href == (canonNormalize finalUrl).href
      if canonicalOk && !multipleCanon then "pass" else "warn"

/-! ## Reports and check builders (part_002) -/

/-- `OMIT_CHECKS` (part_002 lines 124-130), in insertion order. -/
def OMIT_CHECKS : List String :=
  ["mixed-content", "security-headers", "https-redirect", "compression",
   "structured-data"]

/-- `LOCK_PLACEHOLDER(id)` (part_002 lines 142-147): a locked placeholder
check. -/
def LOCK_PLACEHOLDER (id : String) : Check := ⟨id, "locked"⟩

/-- The locked placeholders pushed at the end of every checks array
(part_002 lines 651-652, 847-848, 1298-1299). -/
def lockedPlaceholders : List Check :=
  OMIT_CHECKS.map LOCK_PLACEHOLDER ++ ["h1-structure", "llms"].map LOCK_PLACEHOLDER

/-- `BLOCK_CODES` (part_002 line 108). -/
def BLOCK_CODES : List ℤ := [401, 403, 429]

/-- The audit payload.  JavaScript leaves `blocked`/`timeout` absent (falsy)
except where set to `true`; the embedding uses `false` for absent. -/
structure Report where
  ok : Bool
  url : String
  normalizedUrl : String
  finalUrl : String
  fetchedStatus : ℤ
  timingMs : ℤ
  title : String
  metaDescription : String
  blocked : Bool
  timeout : Bool
  checks : List Check
deriving DecidableEq, Repr

/-- A `const` binding of the enclosing `runAudit` scope as seen from a closure:
either still in its temporal dead zone (declared further down, not yet
executed) or initialized.  Reading an uninitialized binding raises
`ReferenceError`. -/
inductive JsBinding (α : Type) where
  | tdz : JsBinding α
  | ready : α → JsBinding α
deriving DecidableEq, Repr

/-- Reading a binding: a TDZ read throws (modelled as `Except.error`). -/
def JsBinding.read {α : Type} (name : String) : JsBinding α → Except String α
  | .tdz => .error ("ReferenceError: Cannot access " ++ name ++ " before initialization")
  | .ready v => .ok v

/-- Remote/extraction outcomes feeding the TIMEOUT fallback `timeoutPartial`
(part_002 lines 538-695).  Each field abstracts the outcome of one
try/catch-isolated probe:

* `faviconFetchOk`: `some b` — `tryHeadThenGet("/favicon.ico")` returned with
  `isOk = b`; `none` — it threw (line 554 catch).
* `robotsFetchOk`: `some b` — the robots.txt fetch returned with `r.ok = b`;
  `none` — it threw (line 608 catch).
* `robotsDisallowAll`: the `User-agent: *` block contains `Disallow: /`
  (line 586).
* `sitemapFound`: some sitemap candidate answered 2xx/3xx in the HEAD sweep
  before the budget ran out (lines 629-638).
* `psiBudgetOk`: `timeLeft() > 2000` at the PSI step (line 656).
* `psiScore`: `some n` — PSI returned a numeric performance score rounded to
  `n`; `none` — no/invalid response or the probe threw (lines 657-674). -/
structure TimeoutEnv where
  faviconFetchOk : Option Bool
  robotsFetchOk : Option Bool
  robotsDisallowAll : Bool
  sitemapFound : Bool
  psiBudgetOk : Bool
  psiScore : Option ℤ
deriving DecidableEq, Repr

/-- The checks array assembled by `timeoutPartial` (part_002 lines 539-678),
in push order: timeout, favicon, robots, sitemap, locked placeholders,
optional psi. -/
def timeoutPartialChecks (e : TimeoutEnv) : List Check :=
  [⟨"timeout", "warn"⟩,
   ⟨"favicon", match e.faviconFetchOk with
               | some true => "pass"
               | some false => "warn"
               | none => "warn"⟩,
   ⟨"robots", match e.robotsFetchOk with
              | some true => if e.robotsDisallowAll then "fail" else "warn"
              | some false => "warn"
              | none => "warn"⟩,
   ⟨"sitemap", if e.sitemapFound then "warn" else "fail"⟩] ++
  lockedPlaceholders ++
  (if e.psiBudgetOk then
    match e.psiScore with
    | some n => [⟨"psi", if 70 ≤ n then "pass" else "warn"⟩]
    | none => []
  else [])

/-- The payload built at the end of `timeoutPartial` (part_002 lines 680-694).
The object literal reads the `runAudit`-scoped constants `title` (declared at
line 875) and `metaDesc` (declared at line 1244); the bindings are passed in
explicitly so their initialization state at the time of the call is visible. -/
def timeoutPartialPayload (rawUrl normalizedUrl : String)
    (titleB metaDescB : JsBinding String) (e : TimeoutEnv) :
    Except String Report := do
  let checks := timeoutPartialChecks e
  let t ← titleB.read "title"
  let d ← metaDescB.read "metaDesc"
  .ok { ok := true
        timeout := true
        url := rawUrl
        normalizedUrl := normalizedUrl
        finalUrl := normalizedUrl
        fetchedStatus := 0
        timingMs := OVERALL_BUDGET_MS
        title := t
        metaDescription := d
        blocked := false
        checks := checks }

/-- Remote outcomes feeding the dedicated BLOCKED payload (part_002 lines
740-864), one field per try/catch-isolated probe:

* `robotsFetchOk`: `some b` — robots.txt fetch returned with `r.ok = b`;
  `none` — it threw (line 798 catch).
* `robotsDisallowAll`: `Disallow: /` under `User-agent: *` (line 778).
* `sitemapFound`: a candidate of the HEAD sweep answered 2xx/3xx (lines
  812-821).
* `faviconFetchOk`: `some b` — the favicon probe returned with `isOk = b`;
  `none` — it threw (line 842 catch). -/
structure BlockedEnv where
  robotsFetchOk : Option Bool
  robotsDisallowAll : Bool
  sitemapFound : Bool
  faviconFetchOk : Option Bool
deriving DecidableEq, Repr

/-- The checks array of the BLOCKED payload (part_002 lines 748-848), in push
order: blocked, robots, sitemap, favicon, locked placeholders. -/
def blockedChecks (e : BlockedEnv) : List Check :=
  [⟨"blocked", "fail"⟩,
   ⟨"robots", match e.robotsFetchOk with
              | some true => if e.robotsDisallowAll then "fail" else "warn"
              | some false => "warn"
              | none => "warn"⟩,
   ⟨"sitemap", if e.sitemapFound then "warn" else "fail"⟩,
   ⟨"favicon", match e.faviconFetchOk with
               | some true => "pass"
               | some false => "warn"
               | none => "warn"⟩] ++
  lockedPlaceholders

/-- The BLOCKED payload (part_002 lines 851-864): `blocked: true`, the
final status observed after the browser-header retry, empty title and
meta description. -/
def blockedReport (rawUrl normalizedUrl finalUrlBlocked : String) (status timingMs : ℤ)
    (e : BlockedEnv) : Report :=
  { ok := true
    blocked := true
    url := rawUrl
    normalizedUrl := normalizedUrl
    finalUrl := finalUrlBlocked
    fetchedStatus := status
    timingMs := timingMs
    title := ""
    metaDescription := ""
    timeout := false
    checks := blockedChecks e }

/-- Remote and extraction outcomes feeding the normal path (part_002 lines
870-1340).  One field per probe outcome or regex-extraction result:

* `finalUrl`: `pageRes.url` parsed (line 873); `timingMs`: line 872.
* `title`, `metaDesc`: `parseTitle(html)` (line 875) and
  `getMetaName(html, "description") || ""` (line 1244).
* OG block (lines 883-911): `ogTitle`/`ogDesc` — the og meta tags are
  present and non-empty; `ogImage` — `og:image` present and resolvable;
  `ogTimeOk` — `timeLeft() > 300`; `ogFetchOk` — `r.ok` of the image GET
  (`false` also covers a thrown fetch, whose catch sets `ogImageLoads=false`).
* favicon block (lines 913-933): `faviconUrlSome` —
  `absUrl(finalUrl, iconHref || "/favicon.ico")` defined; `favTimeOk` —
  `timeLeft() > 250`; `favFetchOk` — `isOk(r)` (`false` also covers a throw).
* robots block (lines 935-988): `robotsTimeOk` — `timeLeft() > 250`;
  `robotsOk` — the fetch returned `r.ok` (`false` also covers a throw);
  `robotsDisallowAll` — `Disallow: /` under `User-agent: *`.
* sitemap block (lines 991-1119): `sitemapFound` — the discovery loop found a
  reachable candidate; `sitemapGzipped` — `.gz` URL or gzip content-type;
  `sitemapGetOk` — the content GET returned `r.ok` (`false` also covers a
  throw); `sitemapHasUrls` — the extracted `<loc>` list is non-empty;
  `sampleTimeOk` — NOT `timeLeft() < 200` inside the sample task;
  `sampleFetchOk` — `isOk(rr)` of the sampled URL.
* www block (lines 1122-1157): `wwwTimeOk` — `timeLeft() > 250`;
  `variantDiffers` — `variantHost !== host`; `wwwGood` — the Location header
  resolved to the canonical host with status in {301, 302, 307, 308}.
* `canonHrefs`: per `<link rel=canonical>` tag, the resolved href (lines
  1174-1180).
* noindex block (lines 1201-1214): one flag per noindex source;
  `robotsDirectivesPresent` — `robotsStrings.length > 0` (lines 1228-1233).
* `hasViewport`: line 1260.
* images (lines 1264-1295): `imgCount` — number of img tags kept (≤ 40);
  `imgAltNonEmpty` — how many have non-empty alt; `imgSrcCount` — how many
  srcs resolved; `imgModern` — avif/webp srcs; `imgLazy` — `loading="lazy"`
  tags; `imgTimeOk1/2` — NOT `timeLeft() < 200` before HEAD i;
  `imgHuge1/2` — `content-length > 300000` for HEAD i.
* psi (lines 1302-1325): `psiTimeOk` — `timeLeft() > 2000`; `psiScore` —
  `some n` when a numeric score arrived. -/
structure NormalEnv where
  finalUrl : JsUrl
  timingMs : ℤ
  title : String
  metaDesc : String
  ogTitle : Bool
  ogDesc : Bool
  ogImage : Bool
  ogTimeOk : Bool
  ogFetchOk : Bool
  faviconUrlSome : Bool
  favTimeOk : Bool
  favFetchOk : Bool
  robotsTimeOk : Bool
  robotsOk : Bool
  robotsDisallowAll : Bool
  sitemapFound : Bool
  sitemapGzipped : Bool
  sitemapGetOk : Bool
  sitemapHasUrls : Bool
  sampleTimeOk : Bool
  sampleFetchOk : Bool
  wwwTimeOk : Bool
  variantDiffers : Bool
  wwwGood : Bool
  canonHrefs : List (Option JsUrl)
  noindexMetaRobots : Bool
  noindexGooglebot : Bool
  noindexBingbot : Bool
  noindexHeader : Bool
  robotsDirectivesPresent : Bool
  hasViewport : Bool
  imgCount : ℕ
  imgAltNonEmpty : ℕ
  imgSrcCount : ℕ
  imgModern : ℕ
  imgLazy : ℕ
  imgTimeOk1 : Bool
  imgTimeOk2 : Bool
  imgHuge1 : Bool
  imgHuge2 : Bool
  psiTimeOk : Bool
  psiScore : Option ℤ
deriving DecidableEq, Repr

/-- The OG image spend, line 888: `if (ogImage && spend() && timeLeft() > 300)`
— `spend()` runs (and consumes) whenever `ogImage` is truthy. -/
def ogSpendStep (e : NormalEnv) (b : ℤ) : Bool × ℤ :=
  if e.ogImage then spend b 1 else (false, b)

/-- The favicon spend, line 919:
`if (faviconUrl && spend() && timeLeft() > 250)`. -/
def favSpendStep (e : NormalEnv) (b : ℤ) : Bool × ℤ :=
  if e.faviconUrlSome then spend b 1 else (false, b)

/-- Whether the sitemap sample task materializes (lines 1045-1097): a
non-gzipped sitemap was found, its GET succeeded, and `<loc>` entries exist
(`toCheck = absLocs.slice(0, 1)` non-empty). -/
def sampleAttempted (e : NormalEnv) : Bool :=
  e.sitemapFound && !e.sitemapGzipped && e.sitemapGetOk && e.sitemapHasUrls

/-- The sitemap-sample spend, line 1085: `if (!spend() || timeLeft() < 200)`
inside the sample task — `spend()` runs first. -/
def sampleSpendStep (e : NormalEnv) (b : ℤ) : Bool × ℤ :=
  if sampleAttempted e then spend b 1 else (false, b)

/-- The www-variant spend, lines 1124-1127:
`if (timeLeft() > 250) { ... if (variantHost !== host && spend()) ... }`. -/
def wwwSpendStep (e : NormalEnv) (b : ℤ) : Bool × ℤ :=
  if e.wwwTimeOk && e.variantDiffers then spend b 1 else (false, b)

/-- The image HEAD loop (lines 1276-1290): up to `IMAGE_HEADS = 2` iterations
over the resolved srcs; each iteration first calls `spend()` and breaks if it
fails or if `timeLeft() < 200`.  Returns (iteration 1 completed, iteration 2
completed, final quota). -/
def imgSpendSteps (e : NormalEnv) (b : ℤ) : Bool × Bool × ℤ :=
  if 1 ≤ e.imgSrcCount then
    let s1 := spend b 1
    let run1 := s1.1 && e.imgTimeOk1
    if run1 && decide (2 ≤ e.imgSrcCount) then
      let s2 := spend s1.2 1
      (run1, s2.1 && e.imgTimeOk2, s2.2)
    else (run1, false, s1.2)
  else (false, false, b)

/-- The PSI spend, line 1303: `if (spend(2) && timeLeft() > 2000)` — `spend(2)`
runs unconditionally. -/
def psiSpendStep (b : ℤ) : Bool × ℤ := spend b 2

/-- The quota after the OG image block (lines 883-911).  The page fetch and
the blocked-retry fetch run before the first `spend` call, so the normal path
enters this step with the full `MAX_SUBREQUESTS`. -/
def budgetAfterOg (e : NormalEnv) (b0 : ℤ) : ℤ := (ogSpendStep e b0).2

/-- The quota after the favicon block (lines 913-933). -/
def budgetAfterFav (e : NormalEnv) (b0 : ℤ) : ℤ :=
  (favSpendStep e (budgetAfterOg e b0)).2

/-- The quota after the robots block (lines 935-988) and the sitemap block
(lines 991-1119): the robots fetch and the sitemap discovery loop and content
GET never call `spend`; only the sample task does. -/
def budgetAfterSample (e : NormalEnv) (b0 : ℤ) : ℤ :=
  (sampleSpendStep e (budgetAfterFav e b0)).2

/-- The quota after the www-variant block (lines 1122-1157). -/
def budgetAfterWww (e : NormalEnv) (b0 : ℤ) : ℤ :=
  (wwwSpendStep e (budgetAfterSample e b0)).2

/-- The quota after the image HEAD loop (lines 1276-1290). -/
def budgetAfterImg (e : NormalEnv) (b0 : ℤ) : ℤ :=
  (imgSpendSteps e (budgetAfterWww e b0)).2.2

/-- The quota at the end of the normal path, after the PSI spend (line 1303). -/
def budgetFinal (e : NormalEnv) (b0 : ℤ) : ℤ :=
  (psiSpendStep (budgetAfterImg e b0)).2

/-- `ogImageLoads` (lines 887-898): set only when the OG probe ran. -/
def ogImageLoadsOf (e : NormalEnv) (b0 : ℤ) : Option Bool :=
  if e.ogImage && (ogSpendStep e b0).1 && e.ogTimeOk then some e.ogFetchOk else none

/-- `faviconLoads` (lines 914-926): set only when the favicon probe ran. -/
def faviconLoadsOf (e : NormalEnv) (b0 : ℤ) : Option Bool :=
  if e.faviconUrlSome && (favSpendStep e (budgetAfterOg e b0)).1 && e.favTimeOk then
    some e.favFetchOk
  else none

/-- `sitemapSampleOk > 0` (lines 1082-1098): the sampled URL verified. -/
def sampleOkOf (e : NormalEnv) (b0 : ℤ) : Bool :=
  sampleAttempted e && (sampleSpendStep e (budgetAfterFav e b0)).1 &&
    e.sampleTimeOk && e.sampleFetchOk

/-- `canonicalization.tested` (lines 1123-1148). -/
def wwwTestedOf (e : NormalEnv) (b0 : ℤ) : Bool :=
  e.wwwTimeOk && e.variantDiffers && (wwwSpendStep e (budgetAfterSample e b0)).1

/-- `huge` after the image HEAD loop (lines 1275-1290). -/
def hugeOf (e : NormalEnv) (b0 : ℤ) : ℕ :=
  (if (imgSpendSteps e (budgetAfterWww e b0)).1 && e.imgHuge1 then 1 else 0) +
    (if (imgSpendSteps e (budgetAfterWww e b0)).2.1 && e.imgHuge2 then 1 else 0)

/-- `psi` as pushed (lines 1302-1325): a numeric score only when the spend and
the budget check passed and the probe produced a number. -/
def psiValOf (e : NormalEnv) (b0 : ℤ) : Option ℤ :=
  if (psiSpendStep (budgetAfterImg e b0)).1 && e.psiTimeOk then e.psiScore else none

/-- The checks array of the normal path (part_002 lines 880-1325), with pushes
in source order.  `status` is `pageRes.status` for the response the normal
path continues with (after a possible browser-header retry). -/
def normalChecks (e : NormalEnv) (status : ℤ) (b0 : ℤ) : List Check :=
  let ogImageLoads := ogImageLoadsOf e b0
  let faviconLoads := faviconLoadsOf e b0
  let robotsExistsB := e.robotsTimeOk && e.robotsOk
  let sampleOk := sampleOkOf e b0
  let wwwTested := wwwTestedOf e b0
  let huge := hugeOf e b0
  let altOk : ℚ :=
    if e.imgCount ≠ 0 then (e.imgAltNonEmpty : ℚ) / (e.imgCount : ℚ) else 1
  [⟨"opengraph",
      if e.ogTitle && (e.ogImage && !(ogImageLoads == some false)) then "pass"
      else if e.ogTitle || e.ogDesc || e.ogImage then "warn" else "fail"⟩,
    ⟨"favicon", match faviconLoads with
                | some true => "pass"
                | some false => "fail"
                | none => "warn"⟩,
    ⟨"robots",
      if robotsExistsB then (if e.robotsDisallowAll then "fail" else "pass")
      else "warn"⟩,
    ⟨"sitemap",
      if e.sitemapFound then
        if e.sitemapGzipped then "warn"
        else if e.sitemapGetOk && e.sitemapHasUrls && sampleOk then "pass" else "warn"
      else "fail"⟩,
    ⟨"www-canonical",
      if wwwTested then (if e.wwwGood then "pass" else "warn") else "warn"⟩,
    ⟨"http", if status < 400 then "pass" else "fail"⟩,
    ⟨"ttfb", if e.timingMs < 1500 then "pass" else "warn"⟩,
    ⟨"canonical", canonicalStatus e.canonHrefs e.finalUrl⟩,
    ⟨"noindex",
      if e.noindexMetaRobots || e.noindexGooglebot || e.noindexBingbot ||
          e.noindexHeader then "fail" else "pass"⟩,
    ⟨"meta-robots",
      if e.robotsDirectivesPresent then
        if e.noindexMetaRobots || e.noindexGooglebot || e.noindexBingbot ||
            e.noindexHeader then "warn" else "pass"
      else "pass"⟩,
    ⟨"meta-description",
      if e.metaDesc ≠ "" then
        if 50 ≤ e.metaDesc.length ∧ e.metaDesc.length ≤ 160 then "pass" else "warn"
      else "fail"⟩,
    ⟨"title-length",
      if e.title.trim.length ≠ 0 then
        if 15 ≤ e.title.trim.length ∧ e.title.trim.length ≤ 60 then "pass" else "warn"
      else "fail"⟩,
    ⟨"viewport", if e.hasViewport then "pass" else "fail"⟩,
    ⟨"img-alt",
      if 0.9 ≤ altOk then "pass" else if 0.6 ≤ altOk then "warn" else "fail"⟩,
    ⟨"img-modern", if 0 < e.imgModern then "pass" else "warn"⟩,
    ⟨"img-size", if huge = 0 then "pass" else if huge ≤ 2 then "warn" else "fail"⟩,
    ⟨"img-lazy", if 0 < e.imgLazy then "pass" else "warn"⟩] ++
  lockedPlaceholders ++
  (match psiValOf e b0 with
   | some n => [⟨"psi", if 70 ≤ n then "pass" else "warn"⟩]
   | none => [])

/-- The checks array and final quota of the normal path together (the quota
is consumed exactly by the six spend steps above). -/
def normalChecksBudget (e : NormalEnv) (status : ℤ) (b0 : ℤ) : List Check × ℤ :=
  (normalChecks e status b0, budgetFinal e b0)

/-- The normal-path payload (part_002 lines 1327-1340). -/
def normalReport (rawUrl normalizedUrl : String) (e : NormalEnv) (status : ℤ) :
    Report :=
  { ok := true
    url := rawUrl
    normalizedUrl := normalizedUrl
    finalUrl := e.finalUrl.href
    fetchedStatus := status
    timingMs := e.timingMs
    title := e.title
    metaDescription := e.metaDesc
    blocked := false
    timeout := false
    checks := (normalChecksBudget e status MAX_SUBREQUESTS).1 }

/-- Everything `runAudit` observes from the outside world, plus the two path
environments:

* `pageAborts`: the main page fetch (with retry wrapper) ended in
  `AbortError` (part_002 lines 714-720).
* `pageStatus`: otherwise, `pageRes.status` of the initial fetch.
* `retryReplaces`: outcome of the browser-header retry taken when
  `BLOCK_CODES.has(pageStatus)` (lines 723-737): `some s` — the retry fetch
  returned with status `s` and replaced `pageRes`; `none` — it threw, keeping
  the original response.
* `blockedFinalUrl` / `blockedTimingMs`: `pageRes.url || normalizedUrl` and
  `Date.now() - t0` at the blocked payload build. -/
structure AuditEnv where
  rawUrl : String
  normalizedUrl : String
  pageAborts : Bool
  pageStatus : ℤ
  retryReplaces : Option ℤ
  blockedFinalUrl : String
  blockedTimingMs : ℤ
  timeoutEnv : TimeoutEnv
  blockedEnv : BlockedEnv
  normalEnv : NormalEnv
deriving DecidableEq, Repr

/-- `pageRes.status` after the blocked-retry block (part_002 lines 724-737):
the retry overwrites `pageRes` whenever its fetch returns; a thrown retry
keeps the original response. -/
def afterRetryStatus (e : AuditEnv) : ℤ :=
  match e.retryReplaces with
  | some s => s
  | none => e.pageStatus

/-- `runAudit` (part_002 lines 517-1341) as a function of the observed remote
behaviour.  The timeout path builds its payload through
`timeoutPartialPayload` with both the `title` and `metaDesc` bindings still
in their temporal dead zone: the `const` declarations at lines 875 and 1244
have not executed when the catch at line 717 runs. -/
def runAuditModel (e : AuditEnv) : Except String Report :=
  if e.pageAborts then
    timeoutPartialPayload e.rawUrl e.normalizedUrl .tdz .tdz e.timeoutEnv
  else if BLOCK_CODES.contains e.pageStatus then
    if BLOCK_CODES.contains (afterRetryStatus e) then
      .ok (blockedReport e.rawUrl e.normalizedUrl e.blockedFinalUrl
            (afterRetryStatus e) e.blockedTimingMs e.blockedEnv)
    else .ok (normalReport e.rawUrl e.normalizedUrl e.normalEnv (afterRetryStatus e))
  else .ok (normalReport e.rawUrl e.normalizedUrl e.normalEnv e.pageStatus)

/-- The status code the GET/POST surface serves for an audit run (part_002
lines 339-347 and 369-412): 200 for a returned payload, 500 when `runAudit`
throws (`catch (e) ... json(req, 500, ...)`). -/
def servedStatus (res : Except String Report) : ℤ :=
  match res with
  | .ok _ => 200
  | .error _ => 500

/-! ## In-process cache and the GET/POST cache policy (part_002) -/

/-- `CACHE_TTL_MS` (part_002 line 241), default 90000 ms. -/
def CACHE_TTL_MS : ℤ := 90000

/-- One cache record `{payload, createdAt, expiresAt}` (part_002 line 242). -/
structure CacheEntry where
  payload : Report
  createdAt : ℤ
  expiresAt : ℤ
deriving DecidableEq, Repr

/-- The `CACHE` map, keyed by `normalizeKey(url)`.  Modelled as an association
list with unique keys; `Map.set` overwrites, `Map.get` returns the entry. -/
abbrev AuditCache : Type := List (String × CacheEntry)

/-- `CACHE.get(key)` without the expiry check. -/
def cacheLookup (c : AuditCache) (key : String) : Option CacheEntry :=
  (c.find? fun p => p.1 == key).map (·.2)

/-- `cacheSet` (part_002 lines 260-263): overwrite the entry for `key`. -/
def cacheSet (c : AuditCache) (key : String) (payload : Report) (now : ℤ) :
    AuditCache :=
  (key, ⟨payload, now, now + CACHE_TTL_MS⟩) :: c.filter fun p => p.1 ≠ key

/-- `cacheGet` (part_002 lines 254-259): a hit past `expiresAt` deletes the
entry and misses (`Date.now() > rec.expiresAt`).  Returns the served record
and the possibly-evicted cache. -/
def cacheGet (c : AuditCache) (key : String) (now : ℤ) :
    Option CacheEntry × AuditCache :=
  match cacheLookup c key with
  | none => (none, c)
  | some rec_ =>
    if rec_.expiresAt < now then
      (none, c.filter fun p => p.1 ≠ key)
    else (some rec_, c)

/-- One inbound audit request at the HTTP surface, with the audit outcome it
would observe as an oracle.  `key` stands for `normalizeKey(rawUrl)`. -/
inductive SurfaceReq where
  | getReq (key : String) (nocache : Bool) (audit : Except String Report) (now : ℤ)
  | postReq (key : String) (nocache wantSnapshot : Bool)
      (audit : Except String Report) (now : ℤ)
deriving Repr

/-- The write half of both handlers (part_002 lines 340-343 and 369-374):
run the audit; on success store the payload only when
`!copy.blocked && !copy.timeout` and (POST) no snapshot was requested. -/
def runAndMaybeStore (c : AuditCache) (key : String) (audit : Except String Report)
    (now : ℤ) (wantSnapshot : Bool) : AuditCache :=
  match audit with
  | .error _ => c
  | .ok out =>
    if !out.blocked && !out.timeout && !wantSnapshot then cacheSet c key out now
    else c

/-- The cache effect of one GET audit request (part_002 lines 326-347): a
fresh cache hit is served without running the audit when `!nocache`;
otherwise the audit runs and the guarded store applies (GET has no snapshot
mode). -/
def handleGet (c : AuditCache) (key : String) (nocache : Bool)
    (audit : Except String Report) (now : ℤ) : AuditCache :=
  if nocache then runAndMaybeStore c key audit now false
  else
    match cacheGet c key now with
    | (some _, c1) => c1
    | (none, c1) => runAndMaybeStore c1 key audit now false

/-- The cache effect of one POST audit request (part_002 lines 351-412): the
cache is read only when `!nocache && !wantSnapshot`; the store is guarded by
`!blocked && !timeout && !wantSnapshot`. -/
def handlePost (c : AuditCache) (key : String) (nocache wantSnapshot : Bool)
    (audit : Except String Report) (now : ℤ) : AuditCache :=
  if nocache || wantSnapshot then runAndMaybeStore c key audit now wantSnapshot
  else
    match cacheGet c key now with
    | (some _, c1) => c1
    | (none, c1) => runAndMaybeStore c1 key audit now wantSnapshot

/-- The cache effect of one request at the HTTP surface. -/
def applyReq (c : AuditCache) : SurfaceReq → AuditCache
  | .getReq key nocache audit now => handleGet c key nocache audit now
  | .postReq key nocache wantSnapshot audit now =>
    handlePost c key nocache wantSnapshot audit now

/-- The cache reached after a sequence of requests, starting from the empty
per-process map. -/
def runReqs (reqs : List SurfaceReq) : AuditCache :=
  reqs.foldl applyReq ([] : List (String × CacheEntry))

/-- The cache invariant of interest: no stored payload is a BLOCKED or a
TIMEOUT report. -/
def CacheClean (c : AuditCache) : Prop :=
  ∀ p ∈ c, p.2.payload.blocked = false ∧ p.2.payload.timeout = false

/-! ## Sample environments (concrete inputs for witnesses) -/

/-- A concrete parsed URL. -/
def sampleJsUrl : JsUrl := ⟨"https:", "example.com", "", "/", "", ""⟩

/-- A parsed URL differing from `sampleJsUrl` only in pathname. -/
def otherJsUrl : JsUrl := ⟨"https:", "example.com", "", "/about", "", ""⟩

/-- A concrete timeout-path environment: every probe inconclusive. -/
def sampleTimeoutEnv : TimeoutEnv := ⟨none, none, false, false, false, none⟩

/-- A concrete blocked-path environment: every probe inconclusive. -/
def sampleBlockedEnv : BlockedEnv := ⟨none, false, false, none⟩

/-- A concrete normal-path environment: an empty page with no probes
answering. -/
def sampleNormalEnv : NormalEnv :=
  { finalUrl := sampleJsUrl
    timingMs := 100
    title := ""
    metaDesc := ""
    ogTitle := false
    ogDesc := false
    ogImage := false
    ogTimeOk := false
    ogFetchOk := false
    faviconUrlSome := false
    favTimeOk := false
    favFetchOk := false
    robotsTimeOk := false
    robotsOk := false
    robotsDisallowAll := false
    sitemapFound := false
    sitemapGzipped := false
    sitemapGetOk := false
    sitemapHasUrls := false
    sampleTimeOk := false
    sampleFetchOk := false
    wwwTimeOk := false
    variantDiffers := false
    wwwGood := false
    canonHrefs := []
    noindexMetaRobots := false
    noindexGooglebot := false
    noindexBingbot := false
    noindexHeader := false
    robotsDirectivesPresent := false
    hasViewport := false
    imgCount := 0
    imgAltNonEmpty := 0
    imgSrcCount := 0
    imgModern := 0
    imgLazy := 0
    imgTimeOk1 := false
    imgTimeOk2 := false
    imgHuge1 := false
    imgHuge2 := false
    psiTimeOk := false
    psiScore := none }

/-- `sampleNormalEnv` with a favicon URL present (it always is in practice:
the code falls back to `/favicon.ico`). -/
def sampleNormalEnvFav : NormalEnv :=
  { sampleNormalEnv with faviconUrlSome := true, favTimeOk := true, favFetchOk := true }

/-- A concrete audit environment whose page fetch returns 403 twice. -/
def sampleBlockedAuditEnv : AuditEnv :=
  { rawUrl := "example.com"
    normalizedUrl := "https://example.com"
    pageAborts := false
    pageStatus := 403
    retryReplaces := some 403
    blockedFinalUrl := "https://example.com/"
    blockedTimingMs := 1200
    timeoutEnv := sampleTimeoutEnv
    blockedEnv := sampleBlockedEnv
    normalEnv := sampleNormalEnv }

/-- A concrete audit environment whose page fetch aborts on its timeout. -/
def sampleTimeoutAuditEnv : AuditEnv :=
  { sampleBlockedAuditEnv with pageAborts := true, pageStatus := 0, retryReplaces := none }

/-- A concrete audit environment for the normal path (HTTP 200). -/
def sampleNormalAuditEnv : AuditEnv :=
  { sampleBlockedAuditEnv with pageStatus := 200, retryReplaces := none }

/-- A non-blocked, non-timed-out payload for cache witnesses. -/
def sampleOkReport : Report :=
  normalReport "example.com" "https://example.com" sampleNormalEnv 200

/-! ## Scorer lemmas -/

theorem clampScore_pos (s : ℚ) : 0 < clampScore s :=
  lt_of_lt_of_le (by norm_num) (le_max_left _ _)

theorem le_clampScore (s : ℚ) : 1/20 ≤ clampScore s := by
  unfold clampScore
  have h := le_max_left (0.05 : ℚ) (min 1 s)
  linarith

theorem clampScore_le_one (s : ℚ) : clampScore s ≤ 1 :=
  max_le (by norm_num) (min_le_left _ _)

theorem sum_map_mul {α : Type} (l : List α) (f : α → ℚ) (c : ℚ) :
    (l.map fun x => c * f x).sum = c * (l.map f).sum := by
  induction l with
  | nil => simp
  | cons a t ih => simp [ih, mul_add]

theorem hmEntries_weight_pos (cs : List (String × Option ℚ)) (w : String → ℚ)
    (hw : ∀ p ∈ cs, 0 < w p.1) : ∀ e ∈ hmEntries cs, 0 < w e.1 := by
  intro e he
  rcases List.mem_filterMap.mp he with ⟨p, hp, hfp⟩
  rcases p with ⟨name, v⟩
  cases v with
  | none => simp [hmKeep] at hfp
  | some q =>
    by_cases h0 : 0 < q
    · simp only [hmKeep, h0, if_pos] at hfp
      cases hfp
      exact hw _ hp
    · simp [hmKeep, h0] at hfp

/-- The harmonic-mean aggregate always lies in [1/20, 1]: each clamped entry
score is in [1/20, 1], so the weighted denominator is between the numerator
and twenty times the numerator; with no entries the code returns 1. -/
theorem harmonicMean_bounds (cs : List (String × Option ℚ)) (w : String → ℚ)
    (hw : ∀ p ∈ cs, 0 < w p.1) :
    1/20 ≤ harmonicMean cs w ∧ harmonicMean cs w ≤ 1 := by
  unfold harmonicMean
  by_cases h : (hmEntries cs).isEmpty
  · simp only [h, if_pos]
    norm_num
  · simp only [h, if_neg, Bool.false_eq_true, not_false_iff]
    have hmem : ∀ e ∈ hmEntries cs, 0 < w e.1 := hmEntries_weight_pos cs w hw
    have hne : hmEntries cs ≠ [] := by
      intro hnil; rw [hnil] at h; simp at h
    have hnum_pos : 0 < ((hmEntries cs).map fun e => w e.1).sum := by
      apply List.sum_pos
      · intro x hx
        rcases List.mem_map.mp hx with ⟨e, he, rfl⟩
        exact hmem e he
      · simpa using hne
    have h1 : ((hmEntries cs).map fun e => w e.1).sum ≤
        ((hmEntries cs).map fun e => w e.1 / clampScore e.2).sum := by
      apply List.sum_le_sum
      intro e he
      rw [le_div_iff₀ (clampScore_pos e.2)]
      exact mul_le_of_le_one_right (hmem e he).le (clampScore_le_one e.2)
    have h2 : ((hmEntries cs).map fun e => w e.1 / clampScore e.2).sum ≤
        20 * ((hmEntries cs).map fun e => w e.1).sum := by
      calc ((hmEntries cs).map fun e => w e.1 / clampScore e.2).sum
          ≤ ((hmEntries cs).map fun e => 20 * w e.1).sum := by
            apply List.sum_le_sum
            intro e he
            rw [div_le_iff₀ (clampScore_pos e.2)]
            have hc := le_clampScore e.2
            nlinarith [hmem e he]
        _ = 20 * ((hmEntries cs).map fun e => w e.1).sum := sum_map_mul _ _ _
    have hdenom_pos : 0 < ((hmEntries cs).map fun e => w e.1 / clampScore e.2).sum :=
      lt_of_lt_of_le hnum_pos h1
    constructor
    · rw [le_div_iff₀ hdenom_pos]
      linarith
    · rw [div_le_one hdenom_pos]
      exact h1

theorem catScoresOf_weight_pos (checks : List Check) :
    ∀ p ∈ catScoresOf checks, 0 < categoryWeight p.1 := by
  intro p hp
  simp only [catScoresOf, List.mem_cons, List.mem_singleton, List.not_mem_nil,
    or_false] at hp
  rcases hp with rfl | rfl | rfl <;> norm_num +decide [categoryWeight]

theorem overallPreGates_bounds (checks : List Check) :
    0 ≤ overallPreGates checks ∧ overallPreGates checks ≤ 100 := by
  obtain ⟨hlo, hhi⟩ := harmonicMean_bounds (catScoresOf checks) categoryWeight
    (catScoresOf_weight_pos checks)
  unfold overallPreGates jsRound
  constructor
  · rw [Int.le_floor]
    push_cast
    nlinarith
  · have h : ⌊harmonicMean (catScoresOf checks) categoryWeight * 100 + 1/2⌋ < 101 := by
      rw [Int.floor_lt]
      push_cast
      nlinarith
    omega

theorem applyGates_cases (overall : ℤ) (checks : List Check) (h0 : 0 ≤ overall)
    (h100 : overall ≤ 100) :
    (0 ≤ applyGates overall checks ∧ applyGates overall checks ≤ 100) ∧
    (isFail checks "noindex" = true → applyGates overall checks = 0) ∧
    (isFail checks "http" = true → applyGates overall checks ≤ 40) ∧
    (isFail checks "canonical" = true → applyGates overall checks ≤ 65) ∧
    ((isFail checks "sitemap" = true ∨ isFail checks "robots" = true) →
      applyGates overall checks ≤ 80) := by
  unfold applyGates
  by_cases hn : isFail checks "noindex" <;>
    by_cases hh : isFail checks "http" <;>
      by_cases hc : isFail checks "canonical" <;>
        by_cases hs : isFail checks "sitemap" <;>
          by_cases hr : isFail checks "robots" <;>
            simp [hn, hh, hc, hs, hr] <;> omega

/-! ## Claim C1 -/

/-- Claim C1: for every list of checks the scorer output is an integer in
[0, 100]; a failing `noindex` check forces exactly 0; a failing `http` check
caps the output at 40; a failing `canonical` check caps it at 65; a failing
`sitemap` or `robots` check caps it at 80 — the gates being applied in that
order on the rounded integer score (`isFail` is the code's by-id lookup). -/
theorem scorer_bounds_and_gates (checks : List Check) :
    (0 ≤ computeOverall checks ∧ computeOverall checks ≤ 100) ∧
    (isFail checks "noindex" = true → computeOverall checks = 0) ∧
    (isFail checks "http" = true → computeOverall checks ≤ 40) ∧
    (isFail checks "canonical" = true → computeOverall checks ≤ 65) ∧
    ((isFail checks "sitemap" = true ∨ isFail checks "robots" = true) →
      computeOverall checks ≤ 80) := by
  obtain ⟨h0, h100⟩ := overallPreGates_bounds checks
  exact applyGates_cases (overallPreGates checks) checks h0 h100

/-- Witness for C1 at concrete inputs: a failing noindex check yields 0, a
failing http check (upper-case status, as the code lower-cases) caps at 40. -/
theorem scorer_bounds_and_gates_witness :
    computeOverall [⟨"noindex", "fail"⟩] = 0 ∧
    computeOverall [⟨"http", "FAIL"⟩] ≤ 40 :=
  ⟨(scorer_bounds_and_gates [⟨"noindex", "fail"⟩]).2.1 (by decide),
   (scorer_bounds_and_gates [⟨"http", "FAIL"⟩]).2.2.1 (by decide)⟩

/-! ## Claim C10 -/

theorem usable_eq_false {c : Check}
    (h : LOCKED_IDS.contains c.id = true ∨ c.id = "blocked" ∨ c.id = "timeout") :
    usable c = false := by
  unfold usable
  rcases h with h | h | h
  · rw [h]
    rfl
  · rw [h]
    rfl
  · rw [h]
    rfl

theorem catWeightedScore_none (checks : List Check) (ids : List String)
    (h : ∀ c ∈ checks, usable c = false) :
    catWeightedScore checks ids = none := by
  have hnil : checks.filter (fun c => usable c && ids.contains c.id) = [] := by
    rw [List.filter_eq_nil_iff]
    intro c hc
    simp [h c hc]
  simp only [catWeightedScore, hnil, List.isEmpty_nil, if_true]

theorem byId_eq_none (id : String) :
    ∀ (l : List Check), (∀ c ∈ l, c.id ≠ id) → byId l id = none := by
  intro l
  induction l with
  | nil => intro _; rfl
  | cons c t ih =>
    intro h
    unfold byId at ih ⊢
    simp only [List.foldl_cons]
    rw [if_neg (h c (by simp))]
    exact ih (fun c_ hc_ => h c_ (List.mem_cons_of_mem _ hc_))

/-- Claim C10: when every check is locked (by id) or has id `blocked` /
`timeout`, and no gate id fails, all three category scores are null, the
harmonic mean of the empty entry set is 1, and the overall score is 100. -/
theorem computeOverall_no_usable (checks : List Check)
    (h1 : ∀ c ∈ checks,
      LOCKED_IDS.contains c.id = true ∨ c.id = "blocked" ∨ c.id = "timeout")
    (h2 : ∀ c ∈ checks,
      c.id ∈ (["noindex", "http", "canonical", "sitemap", "robots"] : List String) →
        c.status ≠ "fail") :
    catWeightedScore checks CATS_SEO = none ∧
    catWeightedScore checks CATS_PERFORMANCE = none ∧
    catWeightedScore checks CATS_SECURITY = none ∧
    harmonicMean (catScoresOf checks) categoryWeight = 1 ∧
    computeOverall checks = 100 := by
  have hu : ∀ c ∈ checks, usable c = false := fun c hc => usable_eq_false (h1 c hc)
  have hseo := catWeightedScore_none checks CATS_SEO hu
  have hperf := catWeightedScore_none checks CATS_PERFORMANCE hu
  have hsec := catWeightedScore_none checks CATS_SECURITY hu
  have hhm : harmonicMean (catScoresOf checks) categoryWeight = 1 := by
    simp [harmonicMean, hmEntries, hmKeep, catScoresOf, hseo, hperf, hsec]
  have hgate : ∀ id : String, LOCKED_IDS.contains id = false → id ≠ "blocked" →
      id ≠ "timeout" → isFail checks id = false := by
    intro id hL hb ht
    have hnone : byId checks id = none := by
      apply byId_eq_none
      intro c hc hcid
      rcases h1 c hc with h | h | h
      · rw [hcid, hL] at h
        exact Bool.false_ne_true h
      · rw [hcid] at h
        exact hb h
      · rw [hcid] at h
        exact ht h
    simp [isFail, hnone]
  have hni := hgate "noindex" (by decide) (by decide) (by decide)
  have hht := hgate "http" (by decide) (by decide) (by decide)
  have hca := hgate "canonical" (by decide) (by decide) (by decide)
  have hsi := hgate "sitemap" (by decide) (by decide) (by decide)
  have hro := hgate "robots" (by decide) (by decide) (by decide)
  refine ⟨hseo, hperf, hsec, hhm, ?_⟩
  unfold computeOverall overallPreGates
  rw [hhm]
  have h100 : jsRound (1 * 100) = 100 := by norm_num [jsRound]
  rw [h100]
  simp [applyGates, hni, hht, hca, hsi, hro]

/-- Witness for C10: locked placeholders plus `blocked`/`timeout` cards score
100. -/
theorem computeOverall_no_usable_witness :
    computeOverall [⟨"llms", "locked"⟩, ⟨"blocked", "fail"⟩, ⟨"timeout", "warn"⟩]
      = 100 :=
  (computeOverall_no_usable _ (by decide) (by decide)).2.2.2.2

/-! ## Claim C8 -/

/-- Counterexample for C8 as stated: with checks `http=fail, sitemap=pass` the
SECURITY category score is exactly 0, the code's pre-gate overall is 100 (the
zero category is dropped by the `v > 0` filter), while the spec formula —
which clamps the 0 up to 0.05 — yields 25. -/
theorem spec_vs_code_zero_category :
    overallPreGates [⟨"http", "fail"⟩, ⟨"sitemap", "pass"⟩] = 100 ∧
    specOverallPreGates [⟨"http", "fail"⟩, ⟨"sitemap", "pass"⟩] = 25 ∧
    specOverallPreGates [⟨"http", "fail"⟩, ⟨"sitemap", "pass"⟩] ≠
      overallPreGates [⟨"http", "fail"⟩, ⟨"sitemap", "pass"⟩] := by
  refine ⟨?_, ?_, ?_⟩ <;>
    norm_num +decide [overallPreGates, specOverallPreGates, harmonicMean,
      specHarmonicMean, hmEntries, hmKeep, specHmEntries, specHmKeep, catScoresOf,
      catWeightedScore, usable, LOCKED_IDS, EXCLUDE_FROM_SCORE, CATS_SEO,
      CATS_PERFORMANCE, CATS_SECURITY, weightOf, vFor, jsToLower, categoryWeight,
      clampScore, jsRound, List.filterMap_cons]

/-- Claim C8, amended: the pre-gate overall is the weighted harmonic mean over
the category scores that are non-null AND strictly positive, each clamped to
[0.05, 1], times 100, rounded; a category whose weighted score is exactly 0 is
excluded from the mean (it behaves exactly like a null category, not like
0.05).  The clamp still engages on positive scores: scores in (0, 0.05] are
raised to 0.05 and scores in [0.05, 1] pass through. -/
theorem harmonicMean_amended_props :
    (∀ (pre post : List (String × Option ℚ)) (c : String) (w : String → ℚ),
      harmonicMean (pre ++ (c, some 0) :: post) w =
        harmonicMean (pre ++ (c, none) :: post) w) ∧
    (∀ s : ℚ, 0 < s → s ≤ 0.05 → clampScore s = 0.05) ∧
    (∀ s : ℚ, 0.05 ≤ s → s ≤ 1 → clampScore s = s) := by
  refine ⟨?_, ?_, ?_⟩
  · intro pre post c w
    unfold harmonicMean hmEntries
    rw [List.filterMap_append, List.filterMap_append, List.filterMap_cons,
      List.filterMap_cons]
    have e0 : hmKeep (c, some 0) = none := by norm_num [hmKeep]
    have e1 : hmKeep (c, none) = none := rfl
    rw [e0, e1]
  · intro s hpos hle
    unfold clampScore
    rw [min_eq_right (by linarith), max_eq_left hle]
  · intro s h005 h1
    unfold clampScore
    rw [min_eq_right h1, max_eq_right h005]

/-- Witness for the amended C8 at concrete inputs: 1/40 clamps up to 0.05, and
a zero SECURITY score aggregates exactly like a null one. -/
theorem harmonicMean_amended_props_witness :
    clampScore (1/40) = 0.05 ∧
    harmonicMean [("SECURITY", some 0)] categoryWeight =
      harmonicMean [("SECURITY", none)] categoryWeight :=
  ⟨harmonicMean_amended_props.2.1 (1/40) (by norm_num) (by norm_num),
   harmonicMean_amended_props.1 [] [] "SECURITY" categoryWeight⟩

end SeoCheck

namespace SeoCheck

/-! ## Claim C7 -/

/-- Counterexample for C7 as stated: with the whole budget elapsed,
`timeLeft() = 0` but `within(2000) = 150` — the per-request timeout exceeds
the remaining overall budget, because `within` floors at 150 ms even when
less than that remains. -/
theorem within_counterexample :
    within 8500 8500 2000 = 150 ∧ timeLeft 8500 8500 = 0 ∧
    ¬ within 8500 8500 2000 ≤ timeLeft 8500 8500 := by decide

/-- Claim C7, amended: `within(ms)` equals `clamp(ms, 150ms, timeLeft())` for
every requested timeout, and the resulting per-request timeout never exceeds
the remaining overall budget provided at least 150 ms of budget remain
(when less remains, `within` still returns 150). -/
theorem within_clamp (budgetMs elapsed ms : ℤ) :
    within budgetMs elapsed ms = clampInt ms 150 (timeLeft budgetMs elapsed) ∧
    (150 ≤ timeLeft budgetMs elapsed →
      within budgetMs elapsed ms ≤ timeLeft budgetMs elapsed) := by
  constructor
  · rfl
  · intro h
    unfold within
    exact max_le h (min_le_right _ _)

/-- Witness for the amended C7: one second into the default budget, a 2000 ms
request stays within the 7500 ms that remain. -/
theorem within_clamp_witness :
    within 8500 1000 2000 ≤ timeLeft 8500 1000 :=
  (within_clamp 8500 1000 2000).2 (by decide)

/-! ## Claim C2 -/

/-- Claim C2 (the code contradicts it): whenever the initial page fetch aborts
on its timeout, `runAudit` does NOT return a TIMEOUT report — the payload
literal of `timeoutPartial` reads the constants `title` and `metaDesc`, which
are declared only later in `runAudit` (part_002 lines 875 and 1244) and are
still in their temporal dead zone, so the timeout path throws a
`ReferenceError` and the HTTP surface serves 500, not 200. -/
theorem timeout_path_throws (rawUrl normalizedUrl finalUrlB : String) (ps : ℤ)
    (rr : Option ℤ) (bt : ℤ) (te : TimeoutEnv) (be : BlockedEnv) (ne : NormalEnv) :
    runAuditModel ⟨rawUrl, normalizedUrl, true, ps, rr, finalUrlB, bt, te, be, ne⟩ =
      .error "ReferenceError: Cannot access title before initialization" ∧
    servedStatus
      (runAuditModel ⟨rawUrl, normalizedUrl, true, ps, rr, finalUrlB, bt, te, be, ne⟩) =
      500 := by
  constructor
  · rfl
  · rfl

/-! ## Claim C3 -/

/-- Claim C3: every report the audit produces with `blocked = true` has
`fetchedStatus ∈ {401, 403, 429}` — the status observed again after the
browser-header retry — and contains a `blocked` check with status `fail`. -/
theorem blocked_reports_invariant (e : AuditEnv) (R : Report)
    (h : runAuditModel e = .ok R) (hb : R.blocked = true) :
    (R.fetchedStatus = 401 ∨ R.fetchedStatus = 403 ∨ R.fetchedStatus = 429) ∧
    ∃ c ∈ R.checks, c.id = "blocked" ∧ c.status = "fail" := by
  unfold runAuditModel at h
  by_cases ha : e.pageAborts
  · rw [if_pos ha] at h
    exact absurd h
      (by simp [timeoutPartialPayload, JsBinding.read, Bind.bind, Except.bind])
  · rw [if_neg ha] at h
    by_cases h1 : BLOCK_CODES.contains e.pageStatus
    · rw [if_pos h1] at h
      by_cases h2 : BLOCK_CODES.contains (afterRetryStatus e)
      · rw [if_pos h2] at h
        cases h
        constructor
        · simpa [BLOCK_CODES] using h2
        · exact ⟨⟨"blocked", "fail"⟩, by simp [blockedReport, blockedChecks], rfl, rfl⟩
      · rw [if_neg h2] at h
        cases h
        simp [normalReport] at hb
    · rw [if_neg h1] at h
      cases h
      simp [normalReport] at hb

/-- Witness for C3: a page answering 403 twice yields a blocked report whose
status is in the block set and whose checks contain blocked/fail. -/
theorem blocked_reports_invariant_witness :
    ((blockedReport "example.com" "https://example.com" "https://example.com/"
        403 1200 sampleBlockedEnv).fetchedStatus = 401 ∨
     (blockedReport "example.com" "https://example.com" "https://example.com/"
        403 1200 sampleBlockedEnv).fetchedStatus = 403 ∨
     (blockedReport "example.com" "https://example.com" "https://example.com/"
        403 1200 sampleBlockedEnv).fetchedStatus = 429) ∧
    ∃ c ∈ (blockedReport "example.com" "https://example.com" "https://example.com/"
        403 1200 sampleBlockedEnv).checks, c.id = "blocked" ∧ c.status = "fail" :=
  blocked_reports_invariant sampleBlockedAuditEnv _ rfl rfl

/-! ## Claim C5 -/

theorem timeoutChecks_ids_nodup (te : TimeoutEnv) :
    ((timeoutPartialChecks te).map (·.id)).Nodup := by
  unfold timeoutPartialChecks lockedPlaceholders OMIT_CHECKS LOCK_PLACEHOLDER
  cases hb : te.psiBudgetOk <;> cases hs : te.psiScore <;>
    simp [List.map_append]

theorem blockedChecks_ids_nodup (be : BlockedEnv) :
    ((blockedChecks be).map (·.id)).Nodup := by
  unfold blockedChecks lockedPlaceholders OMIT_CHECKS LOCK_PLACEHOLDER
  simp [List.map_append]

theorem normalChecks_ids_nodup (e : NormalEnv) (st b : ℤ) :
    ((normalChecks e st b).map (·.id)).Nodup := by
  unfold normalChecks lockedPlaceholders OMIT_CHECKS LOCK_PLACEHOLDER
  cases hv : psiValOf e b <;> simp [List.map_append]

theorem report_ids_nodup (e : AuditEnv) (R : Report)
    (h : runAuditModel e = .ok R) : (R.checks.map (·.id)).Nodup := by
  unfold runAuditModel at h
  by_cases ha : e.pageAborts
  · rw [if_pos ha] at h
    exact absurd h
      (by simp [timeoutPartialPayload, JsBinding.read, Bind.bind, Except.bind])
  · rw [if_neg ha] at h
    by_cases h1 : BLOCK_CODES.contains e.pageStatus
    · rw [if_pos h1] at h
      by_cases h2 : BLOCK_CODES.contains (afterRetryStatus e)
      · rw [if_pos h2] at h
        cases h
        exact blockedChecks_ids_nodup e.blockedEnv
      · rw [if_neg h2] at h
        cases h
        exact normalChecks_ids_nodup e.normalEnv _ _
    · rw [if_neg h1] at h
      cases h
      exact normalChecks_ids_nodup e.normalEnv _ _

/-- Claim C5: every report the orchestrator produces (normal or BLOCKED path)
has pairwise distinct check ids, and the checks list the TIMEOUT fallback
assembles (before its payload build) also has pairwise distinct ids. -/
theorem no_duplicate_check_ids :
    (∀ (e : AuditEnv) (R : Report), runAuditModel e = .ok R →
      (R.checks.map (·.id)).Nodup) ∧
    (∀ te : TimeoutEnv, ((timeoutPartialChecks te).map (·.id)).Nodup) :=
  ⟨report_ids_nodup, timeoutChecks_ids_nodup⟩

/-- Witness for C5 on a concrete normal-path report. -/
theorem no_duplicate_check_ids_witness :
    ((normalReport "example.com" "https://example.com" sampleNormalEnv 200).checks.map
      (·.id)).Nodup :=
  no_duplicate_check_ids.1 sampleNormalAuditEnv _ rfl

/-! ## Claim C6 -/

/-- Counterexample for C6 as stated: the favicon probe DOES decrement the
sub-request quota (part_002 line 919: `if (faviconUrl && spend() && ...)`) —
with a favicon URL present, the quota drops from 8 to 7 across the favicon
block, while the preceding OG block (no og:image here) left it unchanged. -/
theorem favicon_spend_counterexample :
    budgetAfterOg sampleNormalEnvFav MAX_SUBREQUESTS = 8 ∧
    budgetAfterFav sampleNormalEnvFav MAX_SUBREQUESTS = 7 ∧
    budgetAfterFav sampleNormalEnvFav MAX_SUBREQUESTS ≠
      budgetAfterOg sampleNormalEnvFav MAX_SUBREQUESTS := by decide

/-- Claim C6, amended: the normal path's final quota is the composition of
exactly six spend sites — OG image, favicon, sitemap URL sample, www-variant,
image HEADs, PSI; the main page fetch, the blocked retry, the robots.txt
fetch, the sitemap discovery probes and the sitemap content GET never call
`spend` (the quota thread skips those blocks entirely).  The favicon probe,
contrary to the original claim, spends one unit whenever its URL is defined
and quota remains; each other spend site leaves the counter unchanged
whenever its probe is not attempted. -/
theorem quota_spend_sites :
    (∀ (e : NormalEnv) (st b : ℤ),
      (normalChecksBudget e st b).2 = (psiSpendStep (budgetAfterImg e b)).2) ∧
    (∀ (e : NormalEnv) (b : ℤ), e.ogImage = false → (ogSpendStep e b).2 = b) ∧
    (∀ (e : NormalEnv) (b : ℤ), e.faviconUrlSome = true → 1 ≤ b →
      (favSpendStep e b).2 = b - 1) ∧
    (∀ (e : NormalEnv) (b : ℤ), e.faviconUrlSome = false →
      (favSpendStep e b).2 = b) ∧
    (∀ (e : NormalEnv) (b : ℤ), sampleAttempted e = false →
      (sampleSpendStep e b).2 = b) ∧
    (∀ (e : NormalEnv) (b : ℤ), (e.wwwTimeOk && e.variantDiffers) = false →
      (wwwSpendStep e b).2 = b) ∧
    (∀ (e : NormalEnv) (b : ℤ), e.imgSrcCount = 0 →
      (imgSpendSteps e b).2.2 = b) := by
  refine ⟨fun e st b => rfl, ?_, ?_, ?_, ?_, ?_, ?_⟩
  · intro e b h
    simp [ogSpendStep, h]
  · intro e b h hb
    have hneg : ¬ (b - 1 < 0) := by omega
    simp [favSpendStep, h, spend, hneg]
  · intro e b h
    simp [favSpendStep, h]
  · intro e b h
    simp [sampleSpendStep, h]
  · intro e b h
    simp [wwwSpendStep, h]
  · intro e b h
    simp [imgSpendSteps, h]

/-- Witness for the amended C6 on concrete environments and a full quota. -/
theorem quota_spend_sites_witness :
    (favSpendStep sampleNormalEnvFav 8).2 = 7 ∧
    (ogSpendStep sampleNormalEnv 8).2 = 8 ∧
    (favSpendStep sampleNormalEnv 8).2 = 8 ∧
    (sampleSpendStep sampleNormalEnv 8).2 = 8 ∧
    (wwwSpendStep sampleNormalEnv 8).2 = 8 ∧
    (imgSpendSteps sampleNormalEnv 8).2.2 = 8 :=
  ⟨quota_spend_sites.2.2.1 sampleNormalEnvFav 8 rfl (by decide),
   quota_spend_sites.2.1 sampleNormalEnv 8 rfl,
   quota_spend_sites.2.2.2.1 sampleNormalEnv 8 rfl,
   quota_spend_sites.2.2.2.2.1 sampleNormalEnv 8 (by decide),
   quota_spend_sites.2.2.2.2.2.1 sampleNormalEnv 8 rfl,
   quota_spend_sites.2.2.2.2.2.2 sampleNormalEnv 8 rfl⟩

/-! ## Claim C4 -/

theorem cacheClean_filter (c : AuditCache) (f : String × CacheEntry → Bool)
    (h : CacheClean c) : CacheClean (c.filter f) :=
  fun p hp => h p (List.mem_of_mem_filter hp)

theorem cacheClean_cacheSet (c : AuditCache) (key : String) (out : Report) (now : ℤ)
    (h : CacheClean c) (hb : out.blocked = false) (ht : out.timeout = false) :
    CacheClean (cacheSet c key out now) := by
  intro p hp
  rcases List.mem_cons.mp hp with rfl | hp2
  · exact ⟨hb, ht⟩
  · exact cacheClean_filter c _ h p hp2

theorem cacheClean_runAndMaybeStore (c : AuditCache) (key : String)
    (audit : Except String Report) (now : ℤ) (ws : Bool) (h : CacheClean c) :
    CacheClean (runAndMaybeStore c key audit now ws) := by
  unfold runAndMaybeStore
  split
  · exact h
  next out =>
    split
    next hc =>
      simp only [Bool.and_eq_true, Bool.not_eq_true'] at hc
      exact cacheClean_cacheSet c key out now h hc.1.1 hc.1.2
    next hc => exact h

theorem cacheClean_cacheGet_snd (c : AuditCache) (key : String) (now : ℤ)
    (h : CacheClean c) : CacheClean (cacheGet c key now).2 := by
  unfold cacheGet
  cases hl : cacheLookup c key with
  | none => exact h
  | some rec_ =>
    by_cases he : rec_.expiresAt < now
    · simp only [he, if_pos]
      exact cacheClean_filter c _ h
    · simp only [he, if_neg, not_false_iff]
      exact h

theorem cacheClean_handleGet (c : AuditCache) (key : String) (nocache : Bool)
    (audit : Except String Report) (now : ℤ) (h : CacheClean c) :
    CacheClean (handleGet c key nocache audit now) := by
  unfold handleGet
  split
  · exact cacheClean_runAndMaybeStore _ _ _ _ _ h
  · split
    next v c1 hg =>
      have h2 := cacheClean_cacheGet_snd c key now h
      rw [hg] at h2
      exact h2
    next c1 hg =>
      have h2 := cacheClean_cacheGet_snd c key now h
      rw [hg] at h2
      exact cacheClean_runAndMaybeStore _ _ _ _ _ h2

theorem cacheClean_handlePost (c : AuditCache) (key : String) (nocache ws : Bool)
    (audit : Except String Report) (now : ℤ) (h : CacheClean c) :
    CacheClean (handlePost c key nocache ws audit now) := by
  unfold handlePost
  split
  · exact cacheClean_runAndMaybeStore _ _ _ _ _ h
  · split
    next v c1 hg =>
      have h2 := cacheClean_cacheGet_snd c key now h
      rw [hg] at h2
      exact h2
    next c1 hg =>
      have h2 := cacheClean_cacheGet_snd c key now h
      rw [hg] at h2
      exact cacheClean_runAndMaybeStore _ _ _ _ _ h2

theorem cacheClean_applyReq (c : AuditCache) (r : SurfaceReq) (h : CacheClean c) :
    CacheClean (applyReq c r) := by
  cases r with
  | getReq key nocache audit now => exact cacheClean_handleGet c key nocache audit now h
  | postReq key nocache ws audit now =>
    exact cacheClean_handlePost c key nocache ws audit now h

theorem cacheClean_foldl (reqs : List SurfaceReq) :
    ∀ c : AuditCache, CacheClean c → CacheClean (reqs.foldl applyReq c) := by
  induction reqs with
  | nil => intro c h; exact h
  | cons r t ih =>
    intro c h
    exact ih _ (cacheClean_applyReq c r h)

/-- Claim C4: over every sequence of GET/POST audit requests the in-process
cache never stores a BLOCKED or a TIMEOUT report — the guarded `cacheSet`
(only when `!blocked && !timeout` and no snapshot was requested) keeps every
stored payload clean, so a cache lookup can never serve a blocked or
timed-out payload. -/
theorem cache_never_blocked_or_timeout :
    (∀ reqs : List SurfaceReq, CacheClean (runReqs reqs)) ∧
    (∀ (reqs : List SurfaceReq) (key : String) (rec_ : CacheEntry),
      cacheLookup (runReqs reqs) key = some rec_ →
        rec_.payload.blocked = false ∧ rec_.payload.timeout = false) := by
  have hclean : ∀ reqs : List SurfaceReq, CacheClean (runReqs reqs) := by
    intro reqs
    exact cacheClean_foldl reqs [] (by intro p hp; cases hp)
  refine ⟨hclean, ?_⟩
  intro reqs key rec_ hl
  unfold cacheLookup at hl
  rcases Option.map_eq_some'.mp hl with ⟨p, hfind, hp2⟩
  have hmem := List.mem_of_find?_eq_some hfind
  have hp := hclean reqs p hmem
  rw [hp2] at hp
  exact hp

/-- Witness for C4: after one GET that stored a normal report, the lookup
serves exactly that report, and it is neither blocked nor timed out. -/
theorem cache_never_blocked_or_timeout_witness :
    cacheLookup (runReqs [.getReq "k" false (.ok sampleOkReport) 0]) "k" =
      some ⟨sampleOkReport, 0, 90000⟩ ∧
    sampleOkReport.blocked = false ∧ sampleOkReport.timeout = false :=
  ⟨rfl,
   cache_never_blocked_or_timeout.2 [.getReq "k" false (.ok sampleOkReport) 0] "k"
     ⟨sampleOkReport, 0, 90000⟩ rfl⟩

/-! ## Claim C9 -/

/-- Counterexample for C9 as stated: with TWO canonical tags whose FIRST has
no (resolvable) href, the check is `fail`, not `warn` — `canonicalHref` stays
undefined, and the code's `canonicalHref ? ... : "fail"` takes the fail
branch even though multiple canonical tags are present. -/
theorem canonical_counterexample :
    canonicalStatus [none, some sampleJsUrl] sampleJsUrl = "fail" ∧
    canonicalStatus [none, some sampleJsUrl] sampleJsUrl ≠ "warn" := by
  constructor
  · rfl
  · decide

/-- Claim C9, amended: the canonical check passes exactly when exactly one
canonical link (with a resolvable href) is present and the two URLs are equal
after dropping search and hash, lower-casing the host and stripping trailing
slashes from non-root paths; it is `fail` exactly when there is no canonical
tag or the first tag's href is missing/unresolvable; in every other case —
multiple canonicals with a resolvable first href, or a mismatch — it is
`warn`. -/
theorem canonicalStatus_characterization (hrefs : List (Option JsUrl)) (f : JsUrl) :
    (canonicalStatus hrefs f = "pass" ↔
      ∃ a, hrefs = [some a] ∧ (canonNormalize a).href = (canonNormalize f).href) ∧
    (canonicalStatus hrefs f = "fail" ↔
      hrefs = [] ∨ ∃ rest, hrefs = none :: rest) ∧
    (canonicalStatus hrefs f = "warn" ↔
      ∃ a rest, hrefs = some a :: rest ∧
        (rest ≠ [] ∨ (canonNormalize a).href ≠ (canonNormalize f).href)) := by
  match hrefs with
  | [] =>
    refine ⟨?_, ?_, ?_⟩ <;> simp [canonicalStatus]
  | none :: rest =>
    refine ⟨?_, ?_, ?_⟩ <;> simp [canonicalStatus]
  | some a :: rest =>
    unfold canonicalStatus
    match rest with
    | [] =>
      by_cases heq : (canonNormalize a).href = (canonNormalize f).href
      · refine ⟨?_, ?_, ?_⟩ <;> simp [heq]
      · refine ⟨?_, ?_, ?_⟩
        · simp [heq]
        · simp [heq]
        · simp [heq]
          exact ⟨a, [], ⟨rfl, rfl⟩, Or.inr heq⟩
    | b :: bs =>
      refine ⟨?_, ?_, ?_⟩
      · simp
      · simp
      · simp
        exact ⟨a, b :: bs, ⟨rfl, rfl⟩, Or.inl (List.cons_ne_nil b bs)⟩

/-- Witness for the amended C9: a single matching canonical passes; a single
canonical pointing at a different path warns. -/
theorem canonicalStatus_characterization_witness :
    canonicalStatus [some sampleJsUrl] sampleJsUrl = "pass" ∧
    canonicalStatus [some otherJsUrl] sampleJsUrl = "warn" :=
  ⟨(canonicalStatus_characterization [some sampleJsUrl] sampleJsUrl).1.mpr
     ⟨sampleJsUrl, rfl, rfl⟩,
   (canonicalStatus_characterization [some otherJsUrl] sampleJsUrl).2.2.mpr
     ⟨otherJsUrl, [], rfl, Or.inr (by decide)⟩⟩

end SeoCheck
